import Mathlib

/-!
Verification of `baseplate`'s Thrift RPC transport core against its
natural-language specification.

This file shallowly embeds the behaviour of:

* `baseplate/thrift_pool.py` — `ThriftConnectionPool` (`_acquire`,
  `_release`, and the `connection` context manager);
* `baseplate/integration/thrift.py` — `TBaseplateProcessor` (`process`,
  `_handle_upgrade`, `_handle_not_found`, `_handle_method_call`);
* `baseplate/server/thrift.py` — `GeventServer.handle`'s per-connection
  serving loop (and the fact that one processor instance is shared by
  every connection of a server).

Python-level effects are made explicit: the wall clock is a `now`
parameter, the outcome of each socket connect attempt is a `Nat → Bool`
oracle indexed by attempt number, exceptions become `Except` /
explicit outcome sums, and protocol writes become a list of output
events.  Machine floats only occur as wall-clock seconds, modelled as
`Nat` ticks.
-/

/-! ## Connection pool (`baseplate/thrift_pool.py`) -/

/-- One established Thrift connection: the protocol object returned by
`_make_protocol` after `trans.open()` succeeded.  `id` distinguishes
connection objects, `birthdate` is `baseplate_birthdate`, `isOpen`
mirrors `prot.trans.isOpen()`. -/
structure Conn where
  id : Nat
  birthdate : Nat
  isOpen : Bool
deriving DecidableEq, Repr

/-- `prot.trans.close()`. -/
def Conn.close (c : Conn) : Conn := { c with isOpen := false }

/-- The `type` codes of `thriftpy`'s `TTransportException` used by the pool. -/
inductive TTransportType where
  | notOpen
  | timedOut
  | unknown
deriving DecidableEq, Repr

/-- `TTransportException(type=..., message=...)`. -/
structure TTransportException where
  type : TTransportType
  message : String
deriving DecidableEq, Repr

/-- The error raised by `_acquire` when `queue.Empty` is caught
(no free slot within `timeout`). -/
def poolExhaustedExc : TTransportException :=
  ⟨.notOpen, "timed out waiting for a connection slot"⟩

/-- The error raised by `_acquire` when the retry policy is exhausted. -/
def connectFailedExc : TTransportException :=
  ⟨.notOpen, "giving up after multiple attempts to connect"⟩

/-- The pool's `queue.LifoQueue` contents: head of the list is the top of
the stack (`put` conses, `get` takes the head).  Each slot holds either a
pooled live connection or `None`. -/
abbrev PoolState := List (Option Conn)

/-- The observable result of one `_acquire` call: the returned connection
or raised error, the number of `trans.open()` attempts performed, and the
connections whose transports were closed along the way. -/
structure AcquireResult where
  outcome : Except TTransportException Conn
  attempts : Nat
  closed : List Conn
deriving Repr

/-- Modelled from the spec: `RetryPolicy.new(attempts=max_retries)`
(`baseplate/retry.py`, not present in the source tree) "produces a
sequence yielding exactly `attempts` tokens then terminating", so the
`for _ in self.retry_policy` loop of `_acquire` runs its body at most
`attempts` times. -/
def RetryPolicy.tokens (attempts : Nat) : Nat := attempts

/-- The connect portion of `_acquire`'s retry loop, entered with
`prot = None`: each remaining retry token builds a protocol and tries
`trans.open()`.  Attempt number `k` succeeds iff `connectOk k`; a
successful attempt stamps `baseplate_birthdate = now` and returns.
Returns the outcome together with the total attempt count. -/
def connectLoop (now : Nat) (connectOk : Nat → Bool) (freshId : Nat) :
    Nat → Nat → Except TTransportException Conn × Nat
  | 0, attempts => (.error connectFailedExc, attempts)
  | fuel + 1, attempts =>
    if connectOk attempts then
      (.ok ⟨freshId + attempts, now, true⟩, attempts + 1)
    else
      connectLoop now connectOk freshId fuel (attempts + 1)

/-- The retry loop of `ThriftConnectionPool._acquire`, given the slot
taken from the queue.  With a live slot the first iteration returns it if
`time.time() - prot.baseplate_birthdate < self.max_age`, otherwise closes
it and falls through to a connect attempt in that same iteration; an
empty slot goes straight to connecting.  If the retry tokens run out the
loop is never entered (or exhausted) and `_acquire` raises the
giving-up error. -/
def acquireFromSlot (maxAge maxRetries now : Nat) (connectOk : Nat → Bool)
    (freshId : Nat) (slot : Option Conn) : AcquireResult :=
  match slot with
  | some prot =>
    if RetryPolicy.tokens maxRetries = 0 then
      ⟨.error connectFailedExc, 0, []⟩
    else if now - prot.birthdate < maxAge then
      ⟨.ok prot, 0, []⟩
    else
      let r := connectLoop now connectOk freshId (RetryPolicy.tokens maxRetries) 0
      ⟨r.1, r.2, [prot.close]⟩
  | none =>
    let r := connectLoop now connectOk freshId (RetryPolicy.tokens maxRetries) 0
    ⟨r.1, r.2, []⟩

/-- `ThriftConnectionPool._acquire`: pop a slot from the LIFO queue
(raising the pool-exhausted error if none is available within the
timeout), then run the retry loop on it.  Note that the popped slot is
*not* pushed back when the retry loop fails: the queue is left one slot
short. -/
def ThriftConnectionPool.acquire (maxAge maxRetries now : Nat)
    (connectOk : Nat → Bool) (freshId : Nat) (s : PoolState) :
    AcquireResult × PoolState :=
  match s with
  | [] => (⟨.error poolExhaustedExc, 0, []⟩, [])
  | slot :: rest =>
    (acquireFromSlot maxAge maxRetries now connectOk freshId slot, rest)

/-- `ThriftConnectionPool._release`: push the connection back if its
transport is still open, else push an empty placeholder. -/
def ThriftConnectionPool.release (prot : Conn) (s : PoolState) : PoolState :=
  if prot.isOpen then some prot :: s else none :: s

/-- How the body of a `with pool.connection() as prot:` block exits,
classified the way the `except` clauses of `connection` classify Python
exceptions: normal return, `TApplicationException`, `TProtocolException`,
`TTransportException`, `socket.timeout`, other `socket.error`, or any
other exception. -/
inductive BodyOutcome where
  | ok
  | appExc (message : String)
  | protoExc (message : String)
  | transportExc (e : TTransportException)
  | sockTimeout
  | sockError (message : String)
  | otherExc (message : String)
deriving DecidableEq, Repr

/-- An exception as observed by the caller of the pool. -/
inductive PoolRaised where
  | tTransport (e : TTransportException)
  | tApplication (message : String)
  | tProtocol (message : String)
  | sockTimeout
  | sockError (message : String)
  | other (message : String)
deriving DecidableEq, Repr

/-- `PoolRaised.isRawSocketError r` holds exactly when `r` is a raw
`socket.timeout` / `socket.error`, i.e. an error outside the
`TTransportException` taxonomy the pool promises to raise. -/
def PoolRaised.isRawSocketError : PoolRaised → Bool
  | .sockTimeout => true
  | .sockError _ => true
  | _ => false

/-- The observable result of one `with pool.connection()` use. -/
structure ConnectionResult where
  raised : Option PoolRaised
  yielded : Option Conn
  state : PoolState
deriving Repr

/-- `ThriftConnectionPool.connection` (the `@contextlib.contextmanager`
method): acquire, yield to the body, and on exit close the connection for
Thrift-level errors (re-raised as-is), for `socket.timeout` (re-raised as
a `TIMED_OUT` transport error) and for `socket.error` (re-raised as an
`UNKNOWN` transport error); the `finally` block releases the connection
in every one of those paths.  If `_acquire` itself raises, the error
propagates before the `try` is entered, so nothing is released. -/
def ThriftConnectionPool.connection (maxAge maxRetries now : Nat)
    (connectOk : Nat → Bool) (freshId : Nat) (s : PoolState)
    (body : Conn → BodyOutcome) : ConnectionResult :=
  let r := ThriftConnectionPool.acquire maxAge maxRetries now connectOk freshId s
  match r.1.outcome with
  | .error e => ⟨some (.tTransport e), none, r.2⟩
  | .ok prot =>
    match body prot with
    | .ok =>
      ⟨none, some prot, ThriftConnectionPool.release prot r.2⟩
    | .appExc m =>
      ⟨some (.tApplication m), some prot,
        ThriftConnectionPool.release prot.close r.2⟩
    | .protoExc m =>
      ⟨some (.tProtocol m), some prot,
        ThriftConnectionPool.release prot.close r.2⟩
    | .transportExc e =>
      ⟨some (.tTransport e), some prot,
        ThriftConnectionPool.release prot.close r.2⟩
    | .sockTimeout =>
      ⟨some (.tTransport ⟨.timedOut, "timed out interacting with socket"⟩),
        some prot, ThriftConnectionPool.release prot.close r.2⟩
    | .sockError m =>
      ⟨some (.tTransport ⟨.unknown, m⟩), some prot,
        ThriftConnectionPool.release prot.close r.2⟩
    | .otherExc m =>
      ⟨some (.other m), some prot, ThriftConnectionPool.release prot r.2⟩

/-! ### Concurrent acquirers as an interleaved transition system

The queue operations of `queue.LifoQueue` are atomic, and between the
`get` and the matching `put` the slot is exclusively held by one caller.
A trace of pool usage is therefore a sequence of `acquire` steps (each
moving a slot from the queue to the checked-out set, or dropping it on a
connect failure) and `release` steps (each moving one checked-out
connection back into the queue, possibly after the holder closed it). -/

/-- Pool plus the multiset of currently checked-out connections. -/
structure PoolSysState where
  pool : PoolState
  checkedOut : List Conn
deriving Repr

/-- One step taken by some caller: an `_acquire` (with that call's clock
reading and connect outcomes) or a `_release` of the `i`-th checked-out
connection, whose transport the holder may have closed first. -/
inductive PoolOp where
  | acquire (now : Nat) (connectOk : Nat → Bool) (freshId : Nat)
  | release (i : Nat) (closedFirst : Bool)

/-- Transition function of the pool system. -/
def PoolSysState.step (maxAge maxRetries : Nat) (s : PoolSysState) :
    PoolOp → PoolSysState
  | .acquire now connectOk freshId =>
    let r := ThriftConnectionPool.acquire maxAge maxRetries now connectOk
      freshId s.pool
    match r.1.outcome with
    | .ok c => ⟨r.2, c :: s.checkedOut⟩
    | .error _ => ⟨r.2, s.checkedOut⟩
  | .release i closedFirst =>
    match s.checkedOut.get? i with
    | none => s
    | some c =>
      let c' := if closedFirst then c.close else c
      ⟨ThriftConnectionPool.release c' s.pool, s.checkedOut.eraseIdx i⟩

/-- Run a trace of operations from a given state. -/
def PoolSysState.run (maxAge maxRetries : Nat) (s : PoolSysState) :
    List PoolOp → PoolSysState
  | [] => s
  | op :: ops =>
    PoolSysState.run maxAge maxRetries (s.step maxAge maxRetries op) ops

/-- The pool of a freshly constructed `ThriftConnectionPool(size=n)`:
`n` empty placeholders and nothing checked out. -/
def PoolSysState.init (n : Nat) : PoolSysState :=
  ⟨List.replicate n none, []⟩

/-- Queued slots plus checked-out slots. -/
def PoolSysState.occupancy (s : PoolSysState) : Nat :=
  s.pool.length + s.checkedOut.length

/-- Live connections outstanding: checked out, or sitting live in the
queue. -/
def PoolSysState.liveConns (s : PoolSysState) : Nat :=
  s.checkedOut.length + (s.pool.filter Option.isSome).length

/-! ## Request processor (`baseplate/integration/thrift.py`) -/

/-- `thriftpy.thrift.TMessageType`. -/
inductive TMessageType where
  | call
  | reply
  | exception
  | oneway
deriving DecidableEq, Repr

/-- A Python exception as it flows through `process` /
`_handle_method_call`: a `TApplicationException` (with its numeric type
code), an instance of a Thrift-IDL-declared exception class (identified
by class name), or any other exception.  The first two derive from
`thriftpy`'s `TException`, the last does not. -/
inductive PyExc where
  | tApplication (typ : Nat) (message : String)
  | declared (cls : String) (message : String)
  | other (message : String)
deriving DecidableEq, Repr

/-- `isinstance(exc, TException)`. -/
def PyExc.isTException : PyExc → Bool
  | .tApplication .. => true
  | .declared .. => true
  | .other _ => false

/-- `str(exc)`. -/
def PyExc.str : PyExc → String
  | .tApplication _ m => m
  | .declared _ m => m
  | .other m => m

/-- `TApplicationException.UNKNOWN_METHOD`. -/
def unknownMethodCode : Nat := 1

/-- `TApplicationException.INTERNAL_ERROR`. -/
def internalErrorCode : Nat := 6

/-- `isinstance(exc, exc_cls)` for a declared exception field bound to
class `cls`: only instances of IDL-declared exception classes can match,
by class name. -/
def excMatches (exc : PyExc) (cls : String) : Bool :=
  match exc with
  | .declared c _ => c = cls
  | _ => false

/-- The (stripped) result message `{name}_result()` built by
`_handle_method_call`: the `success` field, the exception field populated
by the declared-exception scan (field name and the stored exception), and
the generated class's `oneway` flag consulted by `process`. -/
structure ResultMsg where
  success : Option String
  excField : Option (String × PyExc)
  oneway : Bool
deriving DecidableEq, Repr

/-- What the service descriptor supplies for one declared method: the
`oneway` flag of its generated `{name}_result` class and its declared
exception fields `(field_name, bound_exception_class)` in declaration
order (the `success` field excluded, as the scan skips it). -/
structure MethodSpec where
  oneway : Bool
  excFields : List (String × String)
deriving DecidableEq, Repr

/-- `self.service.thrift_services` plus the per-method spec: an ordered
association list method name ↦ spec. -/
abbrev Service := List (String × MethodSpec)

/-- Look a method up in the service descriptor. -/
def Service.lookup (svc : Service) (name : String) : Option MethodSpec :=
  (svc.find? fun p => p.1 = name).map Prod.snd

/-- The application handler: for a method name and its decoded ordered
arguments, either return a value for `success` or raise. -/
abbrev Handler := String → List String → Except PyExc String

/-- One inbound message envelope as read by `read_message_begin`, with
the decoded argument payload. -/
structure InMessage where
  name : String
  msgType : TMessageType
  seqid : Nat
  args : List String
deriving DecidableEq, Repr

/-- The reserved upgrade-probe method name. -/
def upgradeProbeName : String := "__can__finagle__trace__v3__"

/-- One write against the output protocol `oprot`. -/
inductive OutEvent where
  | msgBegin (name : String) (msgType : TMessageType) (seqid : Nat)
  | resultPayload (r : ResultMsg)
  | excPayload (e : PyExc)
  | msgEnd
  | flush
deriving DecidableEq, Repr

/-- `TBaseplateProcessor._handle_method_call`, given the method's spec
and what the handler invocation did: on success store the return value in
`success`; on an exception scan `result.thrift_spec`'s declared exception
fields in order, store the exception in the first field whose bound class
matches, and otherwise re-raise. -/
def TBaseplateProcessor.handleMethodCall (spec : MethodSpec)
    (invoked : Except PyExc String) : Except PyExc ResultMsg :=
  match invoked with
  | .ok v => .ok ⟨some v, none, spec.oneway⟩
  | .error exc =>
    match spec.excFields.find? fun f => excMatches exc f.2 with
    | some f => .ok ⟨none, some (f.1, exc), spec.oneway⟩
    | none => .error exc

/-- Wrapping performed by `process`'s `except` clause before writing the
exception frame: non-`TException` errors become a generic
`TApplicationException(INTERNAL_ERROR, str(exc))`. -/
def wrapForWire (exc : PyExc) : PyExc :=
  if exc.isTException then exc else .tApplication internalErrorCode exc.str

/-- The `UpgradeReply()` acknowledgement written back on the handshake
path (an external `tracing.thrift` struct: empty payload, not a oneway
result). -/
def upgradeReplyMsg : ResultMsg := ⟨none, none, false⟩

/-- `TBaseplateProcessor.process`, one message cycle.  Inputs: the
service descriptor, the handler, the processor's current `is_upgraded`
flag (a request header is read from the stream first iff it is set), and
the inbound message.  Output: the new `is_upgraded` flag and the list of
writes to `oprot`; `.error` models the `assert` on the message type
failing, which propagates out of `process`.

The dispatch mirrors the source exactly, including two quirks:
the `except` branch writes an `EXCEPTION` frame without consulting the
result's `oneway` flag, and on the unknown-method path the local `args`
was never assigned, so calling `handler(name, header, args)` raises
`UnboundLocalError` — a non-`TException` — before `_handle_not_found`
can run, yielding an `INTERNAL_ERROR` frame rather than
`UNKNOWN_METHOD`. -/
def TBaseplateProcessor.process (svc : Service) (handler : Handler)
    (upgraded : Bool) (msg : InMessage) :
    Except String (Bool × List OutEvent) :=
  if msg.msgType = .call ∨ msg.msgType = .oneway then
    if msg.name = upgradeProbeName then
      -- `_handle_upgrade`: set `self.is_upgraded = True`, reply with ack.
      .ok (true,
        [.msgBegin msg.name .reply msg.seqid,
         .resultPayload upgradeReplyMsg, .msgEnd, .flush])
    else
      match Service.lookup svc msg.name with
      | some spec =>
        match TBaseplateProcessor.handleMethodCall spec
            (handler msg.name msg.args) with
        | .ok result =>
          if result.oneway then
            .ok (upgraded, [])
          else
            .ok (upgraded,
              [.msgBegin msg.name .reply msg.seqid,
               .resultPayload result, .msgEnd, .flush])
        | .error exc =>
          .ok (upgraded,
            [.msgBegin msg.name .exception msg.seqid,
             .excPayload (wrapForWire exc), .msgEnd, .flush])
      | none =>
        .ok (upgraded,
          [.msgBegin msg.name .exception msg.seqid,
           .excPayload (wrapForWire
             (.other "local variable args referenced before assignment")),
           .msgEnd, .flush])
  else
    .error "assertion failed: message_type in (CALL, ONEWAY)"

/-! ## Serving loop (`baseplate/server/thrift.py`) -/

/-- `GeventServer.handle`'s per-connection loop: repeatedly call
`self.processor.process(iprot, oprot)` on the messages the client sends,
threading the processor state; any exception escaping `process` ends the
loop (a `TTransportException` — e.g. the client hanging up — is swallowed,
anything else propagates; either way no further message is served).
Returns the writes of each completed cycle. -/
def GeventServer.handle (svc : Service) (handler : Handler) :
    Bool → List InMessage → List (List OutEvent)
  | _, [] => []
  | upgraded, m :: rest =>
    match TBaseplateProcessor.process svc handler upgraded m with
    | .ok r => r.2 :: GeventServer.handle svc handler r.1 rest
    | .error _ => []

/-- A whole `GeventServer` serves every connection with the *same*
processor object (`make_server` builds one processor and `handle` uses
`self.processor` for each accepted socket), so `is_upgraded` is shared
across connections.  Given an interleaved trace of (connection id,
message) events, record for each processed message the connection it
arrived on and whether a `RequestHeader` was read before its envelope
(i.e. the shared `is_upgraded` flag at that moment). -/
def sharedServerTrace (svc : Service) (handler : Handler) :
    Bool → List (Nat × InMessage) → List (Nat × Bool)
  | _, [] => []
  | upgraded, (cid, m) :: rest =>
    match TBaseplateProcessor.process svc handler upgraded m with
    | .ok r => (cid, upgraded) :: sharedServerTrace svc handler r.1 rest
    | .error _ => [(cid, upgraded)]

/-! ## Concrete fixtures

Small concrete services and handlers used to evaluate the model at the
inputs the claims speak about. -/

/-- A service with a single `oneway` method `ping` declaring no
exception fields. -/
def pingService : Service := [("ping", ⟨true, []⟩)]

/-- A `ping` handler that raises a plain (non-`TException`) error. -/
def pingHandler : Handler := fun _ _ => .error (.other "boom")

/-- A service with a single ordinary method `echo`. -/
def echoService : Service := [("echo", ⟨false, []⟩)]

/-- An `echo` handler returning its joined arguments. -/
def echoHandler : Handler := fun _ args => .ok (String.join args)

/-- A service whose method `div` declares two exception fields, `ouch`
bound to class `ArithErr` and `oops` bound to class `OtherErr`, in that
declaration order. -/
def divService : Service :=
  [("div", ⟨false, [("ouch", "ArithErr"), ("oops", "OtherErr")]⟩)]

/-- A `div` handler that raises an instance of the declared exception
class `OtherErr`. -/
def divHandler : Handler := fun _ _ => .error (.declared "OtherErr" "bad")

/-! ## Helper lemmas -/

/-- An error coming out of `connectLoop` is always the giving-up
error. -/
theorem connectLoop_error_eq (now : Nat) (connectOk : Nat → Bool)
    (freshId : Nat) : ∀ fuel base e,
    (connectLoop now connectOk freshId fuel base).1 = .error e →
    e = connectFailedExc := by
  intro fuel
  induction fuel with
  | zero =>
    intro base e h
    simp only [connectLoop] at h
    exact (Except.error.inj h).symm
  | succ n ih =>
    intro base e h
    simp only [connectLoop] at h
    by_cases hc : connectOk base = true
    · simp [hc] at h
    · simp [hc] at h
      exact ih (base + 1) e h

/-- A connection coming out of `connectLoop` is freshly opened: its
birthdate is the current clock reading, its transport is open, and at
least one connect attempt was made. -/
theorem connectLoop_ok_fresh (now : Nat) (connectOk : Nat → Bool)
    (freshId : Nat) : ∀ fuel base c,
    (connectLoop now connectOk freshId fuel base).1 = .ok c →
    c.birthdate = now ∧ c.isOpen = true ∧
      base + 1 ≤ (connectLoop now connectOk freshId fuel base).2 := by
  intro fuel
  induction fuel with
  | zero =>
    intro base c h
    simp [connectLoop] at h
  | succ n ih =>
    intro base c h
    by_cases hc : connectOk base = true
    · simp only [connectLoop, hc, if_true] at h ⊢
      obtain rfl := (Except.ok.inj h).symm
      exact ⟨rfl, rfl, Nat.le_refl _⟩
    · simp only [connectLoop, hc, if_false, Bool.false_eq_true] at h ⊢
      obtain ⟨h1, h2, h3⟩ := ih (base + 1) c h
      exact ⟨h1, h2, Nat.le_of_succ_le h3⟩

/-- If every remaining attempt fails, `connectLoop` exhausts its fuel,
raising the giving-up error after exactly `fuel` further attempts. -/
theorem connectLoop_all_fail (now : Nat) (connectOk : Nat → Bool)
    (freshId : Nat) : ∀ fuel base,
    (∀ k, k < fuel → connectOk (base + k) = false) →
    connectLoop now connectOk freshId fuel base
      = (.error connectFailedExc, base + fuel) := by
  intro fuel
  induction fuel with
  | zero => intro base _; simp [connectLoop]
  | succ n ih =>
    intro base hall
    have h0 : connectOk base = false := by
      simpa using hall 0 (Nat.succ_pos n)
    simp only [connectLoop, h0, Bool.false_eq_true, if_false]
    have := ih (base + 1) fun k hk => by
      have := hall (k + 1) (Nat.succ_lt_succ hk)
      simpa [Nat.add_assoc, Nat.add_comm 1 k] using this
    rw [this]
    ring_nf

/-- If the `j`-th further attempt is the first to succeed and there is
fuel enough to reach it, `connectLoop` returns the fresh connection of
that attempt and performs exactly `j + 1` further attempts. -/
theorem connectLoop_first_success (now : Nat) (connectOk : Nat → Bool)
    (freshId : Nat) : ∀ fuel base j, j < fuel →
    connectOk (base + j) = true →
    (∀ k, k < j → connectOk (base + k) = false) →
    connectLoop now connectOk freshId fuel base
      = (.ok ⟨freshId + (base + j), now, true⟩, base + j + 1) := by
  intro fuel
  induction fuel with
  | zero => intro base j hj; exact absurd hj (Nat.not_lt_zero j)
  | succ n ih =>
    intro base j hj hsucc hpre
    cases j with
    | zero =>
      have h0 : connectOk base = true := by simpa using hsucc
      simp [connectLoop, h0]
    | succ m =>
      have h0 : connectOk base = false := by
        simpa using hpre 0 (Nat.succ_pos m)
      simp only [connectLoop, h0, Bool.false_eq_true, if_false]
      have hrec := ih (base + 1) m (Nat.lt_of_succ_lt_succ hj)
        (by simpa [Nat.add_assoc, Nat.add_comm 1 m] using hsucc)
        (fun k hk => by
          have := hpre (k + 1) (Nat.succ_lt_succ hk)
          simpa [Nat.add_assoc, Nat.add_comm 1 k] using this)
      rw [hrec]
      ring_nf

/-- `List.find?` returns the first element satisfying the predicate. -/
theorem find?_first_match {α : Type} (p : α → Bool) :
    ∀ (pre : List α) (x : α) (post : List α),
    (∀ a ∈ pre, p a = false) → p x = true →
    (pre ++ x :: post).find? p = some x := by
  intro pre
  induction pre with
  | nil => intro x post _ hx; simp [List.find?_cons_of_pos, hx]
  | cons a t ih =>
    intro x post hpre hx
    have ha : p a = false := hpre a (List.mem_cons_self a t)
    rw [List.cons_append, List.find?_cons_of_neg _ (by simp [ha])]
    exact ih x post (fun b hb => hpre b (List.mem_cons_of_mem a hb)) hx

/-! ## Claims -/

/-- C1: the claim states that when `_acquire` obtains a slot but every
permitted connect attempt fails, the slot is still returned to the pool
and the free-slot count is unchanged.  The code does fail with the
`ConnectFailed` error, but `_acquire` raises it *without* putting the
slot back, and the `finally` of `connection` is never reached because
`_acquire` raised before the `try`: with a size-1 pool (one free slot)
against an endpoint refusing every attempt, the pool is empty — not back
to one free slot — afterwards.  This theorem evaluates the model at that
failing input. -/
theorem c1_connect_failed_leaks_slot :
    (ThriftConnectionPool.connection 120 3 1000 (fun _ => false) 50 [none]
      (fun _ => .ok)).raised = some (.tTransport connectFailedExc)
    ∧ (ThriftConnectionPool.connection 120 3 1000 (fun _ => false) 50 [none]
      (fun _ => .ok)).state = []
    ∧ ([none] : PoolState).length = 1 :=
  ⟨rfl, rfl, rfl⟩

/-- C2: the claim states that a `ONEWAY` message never causes any write
to the output protocol, even when the handler raises.  The `except`
branch of `process` writes an `EXCEPTION` frame without consulting the
result's `oneway` flag, so a `ONEWAY` call to the oneway method `ping`
whose handler raises an unmatched error produces a four-event exception
frame rather than no bytes. -/
theorem c2_oneway_handler_raise_writes_exception_frame :
    TBaseplateProcessor.process pingService pingHandler false
      ⟨"ping", .oneway, 7, []⟩
      = .ok (false,
        [.msgBegin "ping" .exception 7,
         .excPayload (.tApplication internalErrorCode "boom"),
         .msgEnd, .flush]) :=
  rfl

/-- C3: the claim states that the upgrade handshake state is
per-connection.  But `GeventServer` passes the *same*
`TBaseplateProcessor` (whose `self.is_upgraded` is processor state) to
every connection's `handle` loop: after connection 1 completes the
upgrade probe, the very next message — arriving on connection 2, which
never upgraded — is processed with the flag set, i.e. a header frame is
read before its envelope (second trace entry `(2, true)`), although no
earlier event of the trace belongs to connection 2. -/
theorem c3_upgrade_state_shared_across_connections :
    sharedServerTrace echoService echoHandler false
      [(1, ⟨upgradeProbeName, .call, 0, []⟩),
       (2, ⟨"echo", .call, 1, ["hi"]⟩)]
      = [(1, false), (2, true)] :=
  rfl

/-- C9: `_release` of a connection whose transport reports open puts the
live connection back in its slot; one whose transport reports closed puts
back an empty placeholder, and any later successful `_acquire` of that
slot goes through at least one fresh connect (the returned connection is
stamped with the acquire-time clock). -/
theorem c9_release_by_transport_state (prot : Conn) (s : PoolState) :
    ThriftConnectionPool.release prot s
      = (if prot.isOpen then some prot else none) :: s
    ∧ (prot.isOpen = false →
      ∀ maxAge maxRetries now connectOk freshId c,
        (ThriftConnectionPool.acquire maxAge maxRetries now connectOk
          freshId (ThriftConnectionPool.release prot s)).1.outcome = .ok c →
        c.birthdate = now ∧
          1 ≤ (ThriftConnectionPool.acquire maxAge maxRetries now connectOk
            freshId (ThriftConnectionPool.release prot s)).1.attempts) := by
  constructor
  · unfold ThriftConnectionPool.release
    split <;> rfl
  · intro hclosed maxAge maxRetries now connectOk freshId c hok
    unfold ThriftConnectionPool.release at hok ⊢
    rw [if_neg (by simp [hclosed])] at hok ⊢
    unfold ThriftConnectionPool.acquire acquireFromSlot at hok ⊢
    simp only at hok ⊢
    obtain ⟨h1, _, h3⟩ := connectLoop_ok_fresh now connectOk freshId
      (RetryPolicy.tokens maxRetries) 0 c hok
    exact ⟨h1, h3⟩

/-- Witness for C9 at a concrete closed connection: releasing it yields
an empty placeholder, and re-acquiring from that slot returns a
connection stamped with the new clock after at least one attempt. -/
theorem c9_release_witness :
    ThriftConnectionPool.release ⟨3, 10, false⟩ []
      = (if (⟨3, 10, false⟩ : Conn).isOpen then some ⟨3, 10, false⟩ else none)
        :: ([] : PoolState)
    ∧ (⟨50, 1000, true⟩ : Conn).birthdate = 1000
    ∧ 1 ≤ (ThriftConnectionPool.acquire 120 3 1000 (fun _ => true) 50
        (ThriftConnectionPool.release ⟨3, 10, false⟩ [])).1.attempts := by
  have h := c9_release_by_transport_state ⟨3, 10, false⟩ []
  have h2 := h.2 rfl 120 3 1000 (fun _ => true) 50 ⟨50, 1000, true⟩ rfl
  exact ⟨h.1, h2.1, h2.2⟩

/-- `_release` always pushes exactly one slot. -/
theorem release_length (prot : Conn) (s : PoolState) :
    (ThriftConnectionPool.release prot s).length = s.length + 1 := by
  unfold ThriftConnectionPool.release
  split <;> simp

/-- One pool-system step never increases queued-plus-checked-out
occupancy: an `_acquire` moves a slot from the queue to the checked-out
set (or drops it entirely when every connect attempt fails), a
`_release` moves one checked-out connection back. -/
theorem step_occupancy_le (maxAge maxRetries : Nat) (s : PoolSysState)
    (op : PoolOp) :
    (s.step maxAge maxRetries op).occupancy ≤ s.occupancy := by
  cases op with
  | acquire now connectOk freshId =>
    simp only [PoolSysState.step]
    cases hpool : s.pool with
    | nil =>
      simp only [ThriftConnectionPool.acquire]
      simp [PoolSysState.occupancy, hpool]
    | cons slot rest =>
      simp only [ThriftConnectionPool.acquire]
      cases (acquireFromSlot maxAge maxRetries now connectOk freshId
          slot).outcome with
      | ok c =>
        simp only [PoolSysState.occupancy, hpool, List.length_cons]
        omega
      | error e =>
        simp only [PoolSysState.occupancy, hpool, List.length_cons]
        omega
  | release i closedFirst =>
    simp only [PoolSysState.step]
    cases hget : s.checkedOut.get? i with
    | none => exact Nat.le_refl _
    | some c =>
      have hlt : i < s.checkedOut.length := by
        obtain ⟨h, _⟩ := List.get?_eq_some.1 hget
        exact h
      simp only [PoolSysState.occupancy, release_length,
        List.length_eraseIdx_of_lt hlt]
      omega

/-- Occupancy is monotonically non-increasing along any trace. -/
theorem run_occupancy_le (maxAge maxRetries : Nat) :
    ∀ (ops : List PoolOp) (s : PoolSysState),
    (PoolSysState.run maxAge maxRetries s ops).occupancy ≤ s.occupancy := by
  intro ops
  induction ops with
  | nil => intro s; exact Nat.le_refl _
  | cons op rest ih =>
    intro s
    calc (PoolSysState.run maxAge maxRetries
            (s.step maxAge maxRetries op) rest).occupancy
        ≤ (s.step maxAge maxRetries op).occupancy := ih _
      _ ≤ s.occupancy := step_occupancy_le maxAge maxRetries s op

/-- C4: for every pool constructed with size `n` and every interleaved
trace of acquire/release operations, queued slots plus checked-out slots
never exceed `n`, and in particular at most `n` live connections are
outstanding at any point (every prefix of a trace is itself a trace, so
this bounds every intermediate state). -/
theorem c4_pool_capacity_invariant (maxAge maxRetries n : Nat)
    (ops : List PoolOp) :
    (PoolSysState.run maxAge maxRetries (PoolSysState.init n) ops).occupancy ≤ n
    ∧ (PoolSysState.run maxAge maxRetries (PoolSysState.init n) ops).liveConns
        ≤ n := by
  have hocc : (PoolSysState.run maxAge maxRetries
      (PoolSysState.init n) ops).occupancy ≤ n := by
    have h := run_occupancy_le maxAge maxRetries ops (PoolSysState.init n)
    simpa [PoolSysState.occupancy, PoolSysState.init] using h
  refine ⟨hocc, ?_⟩
  have hfil : ((PoolSysState.run maxAge maxRetries (PoolSysState.init n)
      ops).pool.filter Option.isSome).length
      ≤ (PoolSysState.run maxAge maxRetries (PoolSysState.init n)
      ops).pool.length :=
    List.length_filter_le _ _
  have : (PoolSysState.run maxAge maxRetries (PoolSysState.init n)
      ops).liveConns
      ≤ (PoolSysState.run maxAge maxRetries (PoolSysState.init n)
      ops).occupancy := by
    simp only [PoolSysState.liveConns, PoolSysState.occupancy]
    omega
  exact Nat.le_trans this hocc

/-- C7: acquiring an empty slot against an endpoint refusing every
permitted attempt performs exactly `maxRetries` connect attempts — no
more, no fewer — and then fails with the giving-up error; if instead the
first successful attempt is attempt `j` (0-based) within the bound, the
fresh connection from that attempt is returned after exactly `j + 1`
attempts, i.e. with no further attempts. -/
theorem c7_exact_retry_attempts (maxAge maxRetries now : Nat)
    (connectOk : Nat → Bool) (freshId : Nat) (rest : PoolState) :
    ((∀ k, k < maxRetries → connectOk k = false) →
      (ThriftConnectionPool.acquire maxAge maxRetries now connectOk freshId
        (none :: rest)).1.outcome = .error connectFailedExc
      ∧ (ThriftConnectionPool.acquire maxAge maxRetries now connectOk freshId
        (none :: rest)).1.attempts = maxRetries)
    ∧ (∀ j, j < maxRetries → connectOk j = true →
      (∀ k, k < j → connectOk k = false) →
      (ThriftConnectionPool.acquire maxAge maxRetries now connectOk freshId
        (none :: rest)).1.outcome = .ok ⟨freshId + j, now, true⟩
      ∧ (ThriftConnectionPool.acquire maxAge maxRetries now connectOk freshId
        (none :: rest)).1.attempts = j + 1) := by
  constructor
  · intro hall
    have h := connectLoop_all_fail now connectOk freshId maxRetries 0
      (fun k hk => by simpa using hall k hk)
    simp only [ThriftConnectionPool.acquire, acquireFromSlot,
      RetryPolicy.tokens, h]
    constructor <;> simp
  · intro j hj hsucc hpre
    have h := connectLoop_first_success now connectOk freshId maxRetries 0 j
      hj (by simpa using hsucc) (fun k hk => by simpa using hpre k hk)
    simp only [ThriftConnectionPool.acquire, acquireFromSlot,
      RetryPolicy.tokens, h]
    exact ⟨by simp, by simp [Nat.add_comm]⟩

/-- Witness for C7: with `max_retries = 3` and an always-refusing
endpoint, exactly 3 attempts are made before the giving-up error; with
the same bound and the endpoint first accepting on attempt 1, the fresh
connection is returned after exactly 2 attempts. -/
theorem c7_exact_retry_attempts_witness :
    ((ThriftConnectionPool.acquire 120 3 1000 (fun _ => false) 50
      [none]).1.outcome = .error connectFailedExc
      ∧ (ThriftConnectionPool.acquire 120 3 1000 (fun _ => false) 50
        [none]).1.attempts = 3)
    ∧ ((ThriftConnectionPool.acquire 120 3 1000 (fun k => k = 1) 50
      [none]).1.outcome = .ok ⟨51, 1000, true⟩
      ∧ (ThriftConnectionPool.acquire 120 3 1000 (fun k => k = 1) 50
        [none]).1.attempts = 2) := by
  constructor
  · exact (c7_exact_retry_attempts 120 3 1000 (fun _ => false) 50 []).1
      (fun k _ => rfl)
  · exact (c7_exact_retry_attempts 120 3 1000 (fun k => k = 1) 50 []).2
      1 (by decide) (by decide) (fun k hk => by
        interval_cases k
        · decide)

/-- C8: a slot holding a connection whose age at acquisition time is at
least `max_age` never yields that connection back from `_acquire`: the
stale connection's transport is closed, and the outcome is either a
freshly connected replacement (stamped with the acquire-time clock,
hence a different object) or the giving-up error; a connection strictly
younger than `max_age` is returned immediately, with no connect attempt
and nothing closed. -/
theorem c8_max_age_replacement (maxAge maxRetries now : Nat)
    (connectOk : Nat → Bool) (freshId : Nat) (c : Conn) (rest : PoolState)
    (hage : 0 < maxAge) (hretr : 0 < maxRetries) :
    (now - c.birthdate < maxAge →
      (ThriftConnectionPool.acquire maxAge maxRetries now connectOk freshId
        (some c :: rest)).1 = ⟨.ok c, 0, []⟩)
    ∧ (maxAge ≤ now - c.birthdate →
      c.close ∈ (ThriftConnectionPool.acquire maxAge maxRetries now connectOk
        freshId (some c :: rest)).1.closed
      ∧ ((ThriftConnectionPool.acquire maxAge maxRetries now connectOk freshId
          (some c :: rest)).1.outcome = .error connectFailedExc
        ∨ ∃ c', (ThriftConnectionPool.acquire maxAge maxRetries now connectOk
            freshId (some c :: rest)).1.outcome = .ok c'
          ∧ c' ≠ c ∧ c'.birthdate = now)) := by
  have hr0 : ¬ RetryPolicy.tokens maxRetries = 0 :=
    Nat.pos_iff_ne_zero.1 hretr
  constructor
  · intro hyoung
    simp [ThriftConnectionPool.acquire, acquireFromSlot, hr0, hyoung]
  · intro hstale
    have hnotyoung : ¬ now - c.birthdate < maxAge := Nat.not_lt.2 hstale
    simp only [ThriftConnectionPool.acquire, acquireFromSlot, hr0, if_false,
      hnotyoung, ite_false]
    refine ⟨List.mem_singleton_self _, ?_⟩
    cases hout : (connectLoop now connectOk freshId
        (RetryPolicy.tokens maxRetries) 0).1 with
    | error e =>
      left
      simp [connectLoop_error_eq now connectOk freshId _ _ e hout, hout]
    | ok c' =>
      right
      refine ⟨c', by simp [hout], ?_, ?_⟩
      · have hbirth := (connectLoop_ok_fresh now connectOk freshId
          (RetryPolicy.tokens maxRetries) 0 c' hout).1
        have hcb : c.birthdate < now := by
          have : 0 < now - c.birthdate := Nat.lt_of_lt_of_le hage hstale
          omega
        intro heq
        subst heq
        omega
      · exact (connectLoop_ok_fresh now connectOk freshId
          (RetryPolicy.tokens maxRetries) 0 c' hout).1

/-- Witness for C8 at concrete inputs: a connection exactly `max_age`
old (born at 880, acquired at 1000 with `max_age = 120`) is closed and
replaced by a fresh connection born at 1000; a connection one tick
younger (born at 881) is returned as-is. -/
theorem c8_max_age_replacement_witness :
    (ThriftConnectionPool.acquire 120 3 1000 (fun _ => true) 50
      [some ⟨9, 881, true⟩]).1 = ⟨.ok ⟨9, 881, true⟩, 0, []⟩
    ∧ (⟨9, 880, true⟩ : Conn).close ∈ (ThriftConnectionPool.acquire 120 3 1000
        (fun _ => true) 50 [some ⟨9, 880, true⟩]).1.closed
    ∧ ((ThriftConnectionPool.acquire 120 3 1000 (fun _ => true) 50
        [some ⟨9, 880, true⟩]).1.outcome = .error connectFailedExc
      ∨ ∃ c', (ThriftConnectionPool.acquire 120 3 1000 (fun _ => true) 50
          [some ⟨9, 880, true⟩]).1.outcome = .ok c'
        ∧ c' ≠ ⟨9, 880, true⟩ ∧ c'.birthdate = 1000) := by
  refine ⟨?_, ?_⟩
  · exact (c8_max_age_replacement 120 3 1000 (fun _ => true) 50
      ⟨9, 881, true⟩ [] (by decide) (by decide)).1 (by decide)
  · exact (c8_max_age_replacement 120 3 1000 (fun _ => true) 50
      ⟨9, 880, true⟩ [] (by decide) (by decide)).2 (by decide)

/-- C6: for a scoped acquisition whose `_acquire` succeeded with an open
connection, every body exit path releases exactly one slot back; exiting
via `socket.timeout` closes the connection (the slot comes back empty)
and re-raises a `TIMED_OUT` transport error; exiting via a generic
`socket.error` closes the connection and re-raises an `UNKNOWN`
transport error; exiting via any other non-Thrift application error
returns the connection live; and whatever the body did, the error the
caller observes is never a raw socket error. -/
theorem c6_connection_exit_paths (maxAge maxRetries now : Nat)
    (connectOk : Nat → Bool) (freshId : Nat) (s : PoolState)
    (body : Conn → BodyOutcome) (prot : Conn)
    (hacq : (ThriftConnectionPool.acquire maxAge maxRetries now connectOk
      freshId s).1.outcome = .ok prot)
    (hopen : prot.isOpen = true) :
    (body prot = .sockTimeout →
      (ThriftConnectionPool.connection maxAge maxRetries now connectOk freshId
        s body).raised = some (.tTransport
          ⟨.timedOut, "timed out interacting with socket"⟩)
      ∧ (ThriftConnectionPool.connection maxAge maxRetries now connectOk
        freshId s body).state
        = none :: (ThriftConnectionPool.acquire maxAge maxRetries now
          connectOk freshId s).2)
    ∧ (∀ m, body prot = .sockError m →
      (ThriftConnectionPool.connection maxAge maxRetries now connectOk freshId
        s body).raised = some (.tTransport ⟨.unknown, m⟩)
      ∧ (ThriftConnectionPool.connection maxAge maxRetries now connectOk
        freshId s body).state
        = none :: (ThriftConnectionPool.acquire maxAge maxRetries now
          connectOk freshId s).2)
    ∧ (∀ m, body prot = .otherExc m →
      (ThriftConnectionPool.connection maxAge maxRetries now connectOk freshId
        s body).raised = some (.other m)
      ∧ (ThriftConnectionPool.connection maxAge maxRetries now connectOk
        freshId s body).state
        = some prot :: (ThriftConnectionPool.acquire maxAge maxRetries now
          connectOk freshId s).2)
    ∧ (ThriftConnectionPool.connection maxAge maxRetries now connectOk freshId
        s body).state.length
      = (ThriftConnectionPool.acquire maxAge maxRetries now connectOk freshId
        s).2.length + 1
    ∧ (∀ e, (ThriftConnectionPool.connection maxAge maxRetries now connectOk
        freshId s body).raised = some e → e.isRawSocketError = false) := by
  have hclosed : (Conn.close prot).isOpen = false := rfl
  simp only [ThriftConnectionPool.connection]
  rw [hacq]
  cases hb : body prot <;>
    simp_all [ThriftConnectionPool.release, Conn.close,
      PoolRaised.isRawSocketError]

/-- Witness for C6: on a one-slot pool with a reachable endpoint, a body
that hits a socket-level timeout makes the scoped use re-raise
`TIMED_OUT` and leave the slot back in the pool as an empty
placeholder. -/
theorem c6_connection_exit_paths_witness :
    (ThriftConnectionPool.connection 120 3 1000 (fun _ => true) 50 [none]
      (fun _ => .sockTimeout)).raised
      = some (.tTransport ⟨.timedOut, "timed out interacting with socket"⟩)
    ∧ (ThriftConnectionPool.connection 120 3 1000 (fun _ => true) 50 [none]
      (fun _ => .sockTimeout)).state
      = none :: (ThriftConnectionPool.acquire 120 3 1000 (fun _ => true) 50
        [none]).2 := by
  exact (c6_connection_exit_paths 120 3 1000 (fun _ => true) 50 [none]
    (fun _ => .sockTimeout) ⟨50, 1000, true⟩ rfl rfl).1 rfl

/-- C5: when the handler of a declared, non-oneway method raises an
error whose class matches a declared exception field — with `pre` the
fields declared before the first matching one — `process` populates that
first matching field, writes a `REPLY`-kind frame carrying the result,
and returns normally, so the per-connection serving loop goes on to
process the remaining messages of the connection. -/
theorem c5_declared_exception_reply (svc : Service) (handler : Handler)
    (upgraded : Bool) (msg : InMessage) (spec : MethodSpec) (exc : PyExc)
    (pre post : List (String × String)) (fn cls : String)
    (rest : List InMessage)
    (htype : msg.msgType = .call)
    (hname : msg.name ≠ upgradeProbeName)
    (hlookup : Service.lookup svc msg.name = some spec)
    (honeway : spec.oneway = false)
    (hfields : spec.excFields = pre ++ (fn, cls) :: post)
    (hpre : ∀ f ∈ pre, excMatches exc f.2 = false)
    (hmatch : excMatches exc cls = true)
    (hraise : handler msg.name msg.args = .error exc) :
    TBaseplateProcessor.process svc handler upgraded msg
      = .ok (upgraded,
        [.msgBegin msg.name .reply msg.seqid,
         .resultPayload ⟨none, some (fn, exc), false⟩,
         .msgEnd, .flush])
    ∧ GeventServer.handle svc handler upgraded (msg :: rest)
      = [.msgBegin msg.name .reply msg.seqid,
         .resultPayload ⟨none, some (fn, exc), false⟩,
         .msgEnd, .flush] :: GeventServer.handle svc handler upgraded rest := by
  have hfind : spec.excFields.find? (fun f => excMatches exc f.2)
      = some (fn, cls) := by
    rw [hfields]
    exact find?_first_match _ pre (fn, cls) post hpre hmatch
  have hproc : TBaseplateProcessor.process svc handler upgraded msg
      = .ok (upgraded,
        [.msgBegin msg.name .reply msg.seqid,
         .resultPayload ⟨none, some (fn, exc), false⟩,
         .msgEnd, .flush]) := by
    simp only [TBaseplateProcessor.process, htype, hname,
      TBaseplateProcessor.handleMethodCall, hlookup, hraise, hfind, honeway,
      if_false, ite_false]
    simp
  refine ⟨hproc, ?_⟩
  simp only [GeventServer.handle, hproc]

/-- Witness for C5: the `div` handler raises a declared `OtherErr`; the
first field bound to that class is the second declared field `oops`, the
reply is a `REPLY` frame with it populated, and the loop serves the next
message of the same connection. -/
theorem c5_declared_exception_reply_witness :
    TBaseplateProcessor.process divService divHandler false
      ⟨"div", .call, 3, ["1", "0"]⟩
      = .ok (false,
        [.msgBegin "div" .reply 3,
         .resultPayload ⟨none, some ("oops", .declared "OtherErr" "bad"), false⟩,
         .msgEnd, .flush])
    ∧ GeventServer.handle divService divHandler false
        [⟨"div", .call, 3, ["1", "0"]⟩, ⟨"div", .call, 4, []⟩]
      = [.msgBegin "div" .reply 3,
         .resultPayload ⟨none, some ("oops", .declared "OtherErr" "bad"), false⟩,
         .msgEnd, .flush]
        :: GeventServer.handle divService divHandler false [⟨"div", .call, 4, []⟩] := by
  exact c5_declared_exception_reply divService divHandler false
    ⟨"div", .call, 3, ["1", "0"]⟩ ⟨false, [("ouch", "ArithErr"), ("oops", "OtherErr")]⟩
    (.declared "OtherErr" "bad") [("ouch", "ArithErr")] [] "oops" "OtherErr"
    [⟨"div", .call, 4, []⟩] rfl (by decide) rfl rfl rfl
    (by intro f hf; fin_cases hf; rfl) rfl rfl

/-- C10: every frame `process` writes in response to a request — whether
`REPLY` or `EXCEPTION`, on any dispatch path — begins with an envelope
carrying exactly the method name and sequence id read from that
request's envelope. -/
theorem c10_reply_correlation (svc : Service) (handler : Handler)
    (upgraded : Bool) (msg : InMessage) (upgraded' : Bool)
    (outs : List OutEvent)
    (h : TBaseplateProcessor.process svc handler upgraded msg
      = .ok (upgraded', outs)) :
    ∀ n t sid, OutEvent.msgBegin n t sid ∈ outs →
      n = msg.name ∧ sid = msg.seqid := by
  intro n t sid hmem
  simp only [TBaseplateProcessor.process] at h
  split at h
  · split at h
    · simp only [Except.ok.injEq, Prod.mk.injEq] at h
      obtain ⟨-, rfl⟩ := h
      simp at hmem
      exact ⟨hmem.1, hmem.2.2⟩
    · split at h
      · split at h
        · split at h
          · simp only [Except.ok.injEq, Prod.mk.injEq] at h
            obtain ⟨-, rfl⟩ := h
            simp at hmem
          · simp only [Except.ok.injEq, Prod.mk.injEq] at h
            obtain ⟨-, rfl⟩ := h
            simp at hmem
            exact ⟨hmem.1, hmem.2.2⟩
        · simp only [Except.ok.injEq, Prod.mk.injEq] at h
          obtain ⟨-, rfl⟩ := h
          simp at hmem
          exact ⟨hmem.1, hmem.2.2⟩
      · simp only [Except.ok.injEq, Prod.mk.injEq] at h
        obtain ⟨-, rfl⟩ := h
        simp at hmem
        exact ⟨hmem.1, hmem.2.2⟩
  · simp at h

/-- Witness for C10 at a concrete request: the reply frame for an
`echo` call carries the request's name and sequence id. -/
theorem c10_reply_correlation_witness :
    "echo" = (⟨"echo", .call, 5, ["hi"]⟩ : InMessage).name
    ∧ (5 : Nat) = (⟨"echo", .call, 5, ["hi"]⟩ : InMessage).seqid := by
  exact c10_reply_correlation echoService echoHandler false
    ⟨"echo", .call, 5, ["hi"]⟩ false
    [.msgBegin "echo" .reply 5,
     .resultPayload ⟨some "hi", none, false⟩, .msgEnd, .flush]
    rfl "echo" .reply 5 (by simp)
